import Mathlib

/-!
Verification of the FuncGenFoil CST fitting / PARSEC-N15 feature extraction
pipeline (`airfoil_generation/dataset/parsec_direct_n15.py`) and of the
validation logic of the discrete-time diffusion sampler
(`airfoil_generation/model/discrete_time_diffusion.py`).

Modelling conventions:
  * IEEE double arithmetic is modelled as exact arithmetic over an arbitrary
    `LinearOrderedField α` (instantiated at `ℚ` for concrete evaluations).
  * External library routines that the source calls (`x ** p`,
    `math.atan`, `math.degrees`, `np.sqrt` inside `np.std`,
    `numpy.linalg.lstsq`, `scipy.optimize.minimize`) are passed in as an
    oracle record `Oracles`; theorems that depend on a library contract
    (e.g. that `lstsq` minimises the residual 2-norm) take that contract as
    an explicit hypothesis.
  * numpy's data-dependent failure modes (IndexError on out-of-range
    indexing, ValueError on impossible broadcasts) are modelled with
    `Except String`; numpy elementwise binary operations use the 1-d
    broadcast rule (equal lengths, or one side of length 1).
  * The IEEE special-value behaviour of the leading-edge slope division
    (float division by zero yields ±inf / NaN, it does not raise) is
    modelled separately and faithfully on an `NpFloat` type.
-/

/-- External numeric routines used by the source, passed as oracles.
`pow` stands for Python's `x ** p` on floats, `atan` for `math.atan`,
`degrees` for `math.degrees`, `sqrt` for the square root used by `np.std`,
`lstsq` for `numpy.linalg.lstsq(A, b, rcond=None)[0]`, and `minimize` for
`scipy.optimize.minimize(...)`, returning (`result.x`, `result.success`). -/
structure Oracles (α : Type) where
  pow : α → α → α
  atan : α → α
  degrees : α → α
  sqrt : α → α
  lstsq : List (List α) → List α → List α
  minimize : (α × α × α) → List α → List α → (α × α × α) × Bool

variable {α : Type} [LinearOrderedField α]

/-- numpy 1-d elementwise binary operation with broadcasting: equal lengths
operate elementwise; a length-1 operand broadcasts against the other; any
other combination raises a ValueError. -/
def npBinop (f : α → α → α) (a b : List α) : Except String (List α) :=
  if a.length = b.length then Except.ok (List.zipWith f a b)
  else if h : a.length = 1 then
    Except.ok (b.map (f (a.head (by cases a <;> simp_all))))
  else if h : b.length = 1 then
    Except.ok (a.map (fun v => f v (b.head (by cases b <;> simp_all))))
  else Except.error "operands could not be broadcast together"

/-- numpy elementwise subtraction with broadcasting. -/
def npSub (a b : List α) : Except String (List α) :=
  npBinop (fun u v => u - v) a b

/-- numpy elementwise addition with broadcasting. -/
def npAdd (a b : List α) : Except String (List α) :=
  npBinop (fun u v => u + v) a b

/-- numpy inner product `a.dot(b)` for 1-d operands: shapes must agree. -/
def npDot (a b : List α) : Except String α :=
  if a.length = b.length then Except.ok (List.zipWith (fun u v => u * v) a b).sum
  else Except.error "shapes not aligned"

/-- numpy matrix–vector product `A.dot(v)` (rows of `A` dotted with `v`). -/
def npMatVec (A : List (List α)) (v : List α) : Except String (List α) :=
  A.mapM (fun row => npDot row v)

/-- Truncating dot product; agrees with `npDot` when the lengths match. -/
def dotT (a b : List α) : α :=
  (List.zipWith (fun u v => u * v) a b).sum

/-- numpy non-negative indexing `xs[i]`: IndexError when out of range. -/
def npGet {β : Type} (xs : List β) (i : ℕ) : Except String β :=
  match xs.get? i with
  | some v => Except.ok v
  | none => Except.error "index out of bounds"

/-- numpy `xs[-1]`: last element, IndexError on an empty array. -/
def npLast (xs : List α) : Except String α :=
  match xs.getLast? with
  | some v => Except.ok v
  | none => Except.error "index -1 is out of bounds"

/-- The binomial weight `k[r] = factorial(n)/factorial(r)/factorial(n-r)`
computed by `CSTLayer.A0_matrix` (source lines 39–40) as a factorial ratio. -/
def kcoef (n r : ℕ) : α :=
  (Nat.factorial n : α) / (Nat.factorial r : α) / (Nat.factorial (n - r) : α)

/-- Transpose of a rectangular row-major matrix with `numCols` columns,
modelling numpy's `.T` view: entry `(i, r)` of the result is entry `(r, i)`
of the argument. -/
def transposeM (numCols : ℕ) (m : List (List α)) : List (List α) :=
  (List.range numCols).map (fun i => m.map (fun row => row.getD i 0))

/-- `CSTLayer.A0_matrix` (source lines 27–42): builds the `(n+1) × n_x`
array with row `r` equal to `k[r] * x ** (n1 + r) * (1 - x) ** (n + n2 - r)`
and returns its transpose, of shape `(n_x, n+1)`. -/
def A0_matrix (pw : α → α → α) (n_cst : ℕ) (n1 n2 : α) (x_coords : List α) :
    List (List α) :=
  transposeM x_coords.length
    ((List.range (n_cst + 1)).map (fun r =>
      x_coords.map (fun xi =>
        kcoef n_cst r * pw xi (n1 + (r : α)) * pw (1 - xi) ((n_cst : α) + n2 - (r : α)))))

theorem getD_map_of_lt {β γ : Type} (f : β → γ) (l : List β) (i : ℕ) (d : γ)
    (h : i < l.length) : (l.map f).getD i d = f l[i] := by
  rw [List.getD_eq_getElem?_getD, List.getElem?_map, List.getElem?_eq_getElem h]
  simp

theorem kcoef_eq_choose (n r : ℕ) (h : r ≤ n) :
    (kcoef n r : α) = (Nat.choose n r : α) := by
  rw [kcoef, Nat.cast_choose α h, div_div]

theorem A0_matrix_length (pw : α → α → α) (n_cst : ℕ) (n1 n2 : α)
    (x_coords : List α) :
    (A0_matrix pw n_cst n1 n2 x_coords).length = x_coords.length := by
  simp [A0_matrix, transposeM]

theorem A0_matrix_row_length (pw : α → α → α) (n_cst : ℕ) (n1 n2 : α)
    (x_coords : List α) (row : List α)
    (h : row ∈ A0_matrix pw n_cst n1 n2 x_coords) : row.length = n_cst + 1 := by
  simp only [A0_matrix, transposeM, List.mem_map, List.mem_range] at h
  obtain ⟨i, _, rfl⟩ := h
  simp

/-- C2: For every station vector `x`, degree `n` and shape exponents
`n1, n2`, the basis matrix built by `CSTLayer.A0_matrix` has shape
`(len x, n+1)`, and its entry at row `i`, column `r` equals
`C(n,r) * x_i ** (n1+r) * (1-x_i) ** (n+n2-r)`, where the binomial
coefficient is computed by the factorial ratio `n!/(r!(n-r)!)`. -/
theorem A0_matrix_spec (pw : α → α → α) (n_cst : ℕ) (n1 n2 : α)
    (x_coords : List α) (i r : ℕ)
    (hi : i < x_coords.length) (hr : r ≤ n_cst) :
    (A0_matrix pw n_cst n1 n2 x_coords).length = x_coords.length ∧
    (∀ row ∈ A0_matrix pw n_cst n1 n2 x_coords, row.length = n_cst + 1) ∧
    ((A0_matrix pw n_cst n1 n2 x_coords).getD i []).getD r 0 =
      (Nat.choose n_cst r : α) * pw (x_coords.getD i 0) (n1 + (r : α)) *
        pw (1 - x_coords.getD i 0) ((n_cst : α) + n2 - (r : α)) := by
  refine ⟨A0_matrix_length pw n_cst n1 n2 x_coords,
    fun row h => A0_matrix_row_length pw n_cst n1 n2 x_coords row h, ?_⟩
  have hr' : r < n_cst + 1 := Nat.lt_succ_of_le hr
  have hi' : i < (List.range x_coords.length).length := by simpa using hi
  have hr'' : r < ((List.range (n_cst + 1)).map (fun r =>
      x_coords.map (fun xi =>
        kcoef n_cst r * pw xi (n1 + (r : α)) * pw (1 - xi)
          ((n_cst : α) + n2 - (r : α))))).length := by simpa using hr'
  simp only [A0_matrix, transposeM]
  rw [getD_map_of_lt _ _ _ _ hi', List.getElem_range]
  rw [getD_map_of_lt _ _ _ _ hr'', List.getElem_map, List.getElem_range]
  rw [getD_map_of_lt _ _ _ _ hi]
  rw [kcoef_eq_choose n_cst r hr]
  rw [List.getD_eq_getElem?_getD, List.getElem?_eq_getElem hi]
  simp

/-- Witness for C2 at a concrete instance. -/
theorem A0_matrix_spec_witness :
    (A0_matrix (α := ℚ) (fun a _ => a) 2 (1/2) 1 [1/2, 1/4]).length = 2 ∧
    (∀ row ∈ A0_matrix (α := ℚ) (fun a _ => a) 2 (1/2) 1 [1/2, 1/4],
      row.length = 3) ∧
    ((A0_matrix (α := ℚ) (fun a _ => a) 2 (1/2) 1 [1/2, 1/4]).getD 1 []).getD 1 0 =
      (Nat.choose 2 1 : ℚ) * (fun (a : ℚ) (_ : ℚ) => a) (([1/2, 1/4] : List ℚ).getD 1 0) ((1/2) + (1 : ℕ)) *
        (fun (a : ℚ) (_ : ℚ) => a) (1 - ([1/2, 1/4] : List ℚ).getD 1 0) (((2 : ℕ) : ℚ) + 1 - (1 : ℕ)) :=
  A0_matrix_spec (fun a _ => a) 2 (1/2) 1 [1/2, 1/4] 1 1 (by decide) (by decide)

/-- Upper-surface ordinates: `y_coords[:n_x][::-1]` (source line 80). -/
def yuOf (y_coords : List α) (n_x : ℕ) : List α :=
  (y_coords.take n_x).reverse

/-- Lower-surface ordinates: `y_coords[n_x-1:]` (source line 81). -/
def ylOf (y_coords : List α) (n_x : ℕ) : List α :=
  y_coords.drop (n_x - 1)

/-- Trailing-edge half thickness `(yu[-1] - yl[-1]) / 2` (source line 82). -/
def teOf (y_coords : List α) (n_x : ℕ) : α :=
  ((yuOf y_coords n_x).getLast?.getD 0 - (ylOf y_coords n_x).getLast?.getD 0) / 2

/-- Upper right-hand side `yu - x_coords * yu[-1]` (source line 83). -/
def buOf (x_coords y_coords : List α) (n_x : ℕ) : List α :=
  List.zipWith (fun u v => u - v) (yuOf y_coords n_x)
    (x_coords.map (fun v => v * (yuOf y_coords n_x).getLast?.getD 0))

/-- Lower right-hand side `yl - x_coords * yl[-1]` (source line 84). -/
def blOf (x_coords y_coords : List α) (n_x : ℕ) : List α :=
  List.zipWith (fun u v => u - v) (ylOf y_coords n_x)
    (x_coords.map (fun v => v * (ylOf y_coords n_x).getLast?.getD 0))

/-- `CSTLayer.fit_CST` (source lines 78–85): split the closed loop into an
upper and a lower surface, compute the trailing-edge half thickness, and
solve the two least-squares systems. Error cases model numpy's IndexError
(empty `[-1]` indexing) and broadcast ValueError. -/
def fit_CST (O : Oracles α) (x_coords : List α) (n1 n2 : α) (n_cst : ℕ)
    (y_coords : List α) (n_x : ℕ) : Except String (List α × List α × α) := do
  let A0 := A0_matrix O.pow n_cst n1 n2 x_coords
  let yu := (y_coords.take n_x).reverse
  let yl := y_coords.drop (n_x - 1)
  let yuLast ← npLast yu
  let ylLast ← npLast yl
  let te := (yuLast - ylLast) / 2
  let bu ← npSub yu (x_coords.map (fun v => v * yuLast))
  let au := O.lstsq A0 bu
  let bl ← npSub yl (x_coords.map (fun v => v * ylLast))
  let al := O.lstsq A0 bl
  pure (au, al, te)

/-- `CSTLayer.fit_CST_up` (source lines 87–94): same computation with the
lower-surface solve commented out; returns `(au, te)`. -/
def fit_CST_up (O : Oracles α) (x_coords : List α) (n1 n2 : α) (n_cst : ℕ)
    (y_coords : List α) (n_x : ℕ) : Except String (List α × α) := do
  let A0 := A0_matrix O.pow n_cst n1 n2 x_coords
  let yu := (y_coords.take n_x).reverse
  let yl := y_coords.drop (n_x - 1)
  let yuLast ← npLast yu
  let ylLast ← npLast yl
  let te := (yuLast - ylLast) / 2
  let bu ← npSub yu (x_coords.map (fun v => v * yuLast))
  let au := O.lstsq A0 bu
  pure (au, te)

/-- `CSTLayer.fit_CST_low` (source lines 96–103): same computation with the
upper-surface solve commented out; returns `(al, te)`. -/
def fit_CST_low (O : Oracles α) (x_coords : List α) (n1 n2 : α) (n_cst : ℕ)
    (y_coords : List α) (n_x : ℕ) : Except String (List α × α) := do
  let A0 := A0_matrix O.pow n_cst n1 n2 x_coords
  let yu := (y_coords.take n_x).reverse
  let yl := y_coords.drop (n_x - 1)
  let yuLast ← npLast yu
  let ylLast ← npLast yl
  let te := (yuLast - ylLast) / 2
  let bl ← npSub yl (x_coords.map (fun v => v * ylLast))
  let al := O.lstsq A0 bl
  pure (al, te)

/-- Squared residual 2-norm of `A·z - b`. -/
def residSS (A : List (List α)) (b z : List α) : α :=
  (((A.map (fun row => dotT row z)).zipWith (fun u v => u - v) b).map
    (fun v => v ^ 2)).sum

/-- `x` is a least-squares solution of `A·x ≈ b` over coefficient vectors of
length `ncols`: it has that length and minimises the residual 2-norm. This
is the documented contract of `numpy.linalg.lstsq`. -/
def IsLstsqSol (A : List (List α)) (b x : List α) (ncols : ℕ) : Prop :=
  x.length = ncols ∧ ∀ z : List α, z.length = ncols → residSS A b x ≤ residSS A b z

theorem bindE_ok {ε β γ : Type} (v : β) (f : β → Except ε γ) :
    (bind (Except.ok v) f : Except ε γ) = f v := rfl

theorem bindE_error {ε β γ : Type} (e : ε) (f : β → Except ε γ) :
    (bind (Except.error e) f : Except ε γ) = Except.error e := rfl

theorem pureE {ε β : Type} (v : β) : (pure v : Except ε β) = Except.ok v := rfl

theorem npSub_of_length_eq {a b : List α} (h : a.length = b.length) :
    npSub a b = Except.ok (List.zipWith (fun u v => u - v) a b) := by
  simp [npSub, npBinop, h]

theorem npLast_of_ne_nil {xs : List α} (h : xs ≠ []) :
    npLast xs = Except.ok (xs.getLast?.getD 0) := by
  rw [npLast, List.getLast?_eq_getLast xs h]
  simp

theorem yuOf_length {y_coords : List α} {n_x : ℕ} (hn : 1 ≤ n_x)
    (hy : y_coords.length = 2 * n_x - 1) : (yuOf y_coords n_x).length = n_x := by
  simp only [yuOf, List.length_reverse, List.length_take, hy]
  omega

theorem ylOf_length {y_coords : List α} {n_x : ℕ} (hn : 1 ≤ n_x)
    (hy : y_coords.length = 2 * n_x - 1) : (ylOf y_coords n_x).length = n_x := by
  simp only [ylOf, List.length_drop, hy]
  omega

theorem fit_CST_eq_ok (O : Oracles α) (x_coords y_coords : List α) (n1 n2 : α)
    (n_cst n_x : ℕ) (hn : 1 ≤ n_x) (hx : x_coords.length = n_x)
    (hy : y_coords.length = 2 * n_x - 1) :
    fit_CST O x_coords n1 n2 n_cst y_coords n_x = Except.ok
      (O.lstsq (A0_matrix O.pow n_cst n1 n2 x_coords) (buOf x_coords y_coords n_x),
       O.lstsq (A0_matrix O.pow n_cst n1 n2 x_coords) (blOf x_coords y_coords n_x),
       teOf y_coords n_x) := by
  have hyu : (yuOf y_coords n_x).length = n_x := yuOf_length hn hy
  have hyl : (ylOf y_coords n_x).length = n_x := ylOf_length hn hy
  have hyune : (y_coords.take n_x).reverse ≠ [] := by
    apply List.ne_nil_of_length_pos
    rw [show (y_coords.take n_x).reverse = yuOf y_coords n_x from rfl, hyu]
    omega
  have hylne : y_coords.drop (n_x - 1) ≠ [] := by
    apply List.ne_nil_of_length_pos
    rw [show y_coords.drop (n_x - 1) = ylOf y_coords n_x from rfl, hyl]
    omega
  have hbu : ((y_coords.take n_x).reverse).length =
      (x_coords.map (fun v => v * ((y_coords.take n_x).reverse.getLast?.getD 0))).length := by
    rw [List.length_map, hx]
    exact hyu
  have hbl : (y_coords.drop (n_x - 1)).length =
      (x_coords.map (fun v => v * ((y_coords.drop (n_x - 1)).getLast?.getD 0))).length := by
    rw [List.length_map, hx]
    exact hyl
  simp only [fit_CST, bind, Except.bind, npLast_of_ne_nil hyune, npLast_of_ne_nil hylne,
    npSub_of_length_eq hbu, npSub_of_length_eq hbl]
  simp only [buOf, blOf, teOf, yuOf, ylOf, pure, Except.pure]

/-- C1: For every input `y_coords` of length `2*n_x-1` over a matching
station set, `CSTLayer.fit_CST` splits it into `yu` = the first `n_x`
values reversed and `yl` = the values from index `n_x-1` on, returns
`te = (yu[-1] - yl[-1])/2`, and returns `au` and `al` as least-squares
solutions (minimum residual 2-norm) of `A0·a = yu - stations*yu[-1]` and
`A0·a = yl - stations*yl[-1]` respectively; the least-squares property of
the library solver is taken as a hypothesis on the two systems it is
called on. -/
theorem fit_CST_spec (O : Oracles α) (x_coords y_coords : List α) (n1 n2 : α)
    (n_cst n_x : ℕ) (hn : 1 ≤ n_x) (hx : x_coords.length = n_x)
    (hy : y_coords.length = 2 * n_x - 1)
    (hu : IsLstsqSol (A0_matrix O.pow n_cst n1 n2 x_coords)
      (buOf x_coords y_coords n_x)
      (O.lstsq (A0_matrix O.pow n_cst n1 n2 x_coords) (buOf x_coords y_coords n_x))
      (n_cst + 1))
    (hl : IsLstsqSol (A0_matrix O.pow n_cst n1 n2 x_coords)
      (blOf x_coords y_coords n_x)
      (O.lstsq (A0_matrix O.pow n_cst n1 n2 x_coords) (blOf x_coords y_coords n_x))
      (n_cst + 1)) :
    ∃ au al : List α,
      fit_CST O x_coords n1 n2 n_cst y_coords n_x =
        Except.ok (au, al, teOf y_coords n_x) ∧
      yuOf y_coords n_x = (y_coords.take n_x).reverse ∧
      ylOf y_coords n_x = y_coords.drop (n_x - 1) ∧
      teOf y_coords n_x = ((yuOf y_coords n_x).getLast?.getD 0 -
        (ylOf y_coords n_x).getLast?.getD 0) / 2 ∧
      IsLstsqSol (A0_matrix O.pow n_cst n1 n2 x_coords)
        (buOf x_coords y_coords n_x) au (n_cst + 1) ∧
      IsLstsqSol (A0_matrix O.pow n_cst n1 n2 x_coords)
        (blOf x_coords y_coords n_x) al (n_cst + 1) := by
  refine ⟨_, _, fit_CST_eq_ok O x_coords y_coords n1 n2 n_cst n_x hn hx hy,
    rfl, rfl, rfl, hu, hl⟩

/-- A concrete oracle record over `ℚ` used to instantiate witnesses; the
least-squares field is supplied per instance. -/
def testOracle (ls : List (List ℚ) → List ℚ → List ℚ) : Oracles ℚ where
  pow := fun _ _ => 0
  atan := fun a => a
  degrees := fun a => a
  sqrt := fun a => a
  lstsq := ls
  minimize := fun g _ _ => (g, true)

theorem IsLstsqSol_zero_inst :
    IsLstsqSol (α := ℚ) [[0, 0], [0, 0]] [0, 0] [0, 0] 2 := by
  constructor
  · decide
  · intro z hz
    obtain ⟨a, b, rfl⟩ := List.length_eq_two.mp hz
    simp [residSS, dotT]

/-- Witness for C1 at a concrete instance. -/
theorem fit_CST_spec_witness :
    ∃ au al : List ℚ,
      fit_CST (testOracle (fun _ _ => [0, 0])) [0, 1] 0 0 1 [0, 0, 0] 2 =
        Except.ok (au, al, teOf ([0, 0, 0] : List ℚ) 2) ∧
      yuOf ([0, 0, 0] : List ℚ) 2 = (([0, 0, 0] : List ℚ).take 2).reverse ∧
      ylOf ([0, 0, 0] : List ℚ) 2 = ([0, 0, 0] : List ℚ).drop (2 - 1) ∧
      teOf ([0, 0, 0] : List ℚ) 2 = ((yuOf ([0, 0, 0] : List ℚ) 2).getLast?.getD 0 -
        (ylOf ([0, 0, 0] : List ℚ) 2).getLast?.getD 0) / 2 ∧
      IsLstsqSol (A0_matrix (testOracle (fun _ _ => [0, 0])).pow 1 0 0 [0, 1])
        (buOf [0, 1] ([0, 0, 0] : List ℚ) 2) au (1 + 1) ∧
      IsLstsqSol (A0_matrix (testOracle (fun _ _ => [0, 0])).pow 1 0 0 [0, 1])
        (blOf [0, 1] ([0, 0, 0] : List ℚ) 2) al (1 + 1) := by
  have hA : A0_matrix (testOracle (fun _ _ => [0, 0])).pow 1 0 0 ([0, 1] : List ℚ) =
      [[0, 0], [0, 0]] := by
    simp [A0_matrix, transposeM, testOracle, List.range_succ]
  have hbu : buOf ([0, 1] : List ℚ) [0, 0, 0] 2 = [0, 0] := by
    simp [buOf, yuOf]
  have hbl : blOf ([0, 1] : List ℚ) [0, 0, 0] 2 = [0, 0] := by
    simp [blOf, ylOf]
  refine fit_CST_spec (testOracle (fun _ _ => [0, 0])) [0, 1] [0, 0, 0] 0 0 1 2
    (by decide) (by decide) (by decide) ?_ ?_
  · rw [hA, hbu]
    exact IsLstsqSol_zero_inst
  · rw [hA, hbl]
    exact IsLstsqSol_zero_inst

/-- C9 (amended): whenever `fit_CST` succeeds, `fit_CST_up` returns exactly
its `(au, te)` components and `fit_CST_low` exactly its `(al, te)`
components. (`fit_CST_up` can additionally succeed on inputs where
`fit_CST` raises in the lower-surface solve, see the counterexample.) -/
theorem fit_modes_agree (O : Oracles α) (x_coords y_coords : List α)
    (n1 n2 : α) (n_cst n_x : ℕ) (au al : List α) (te : α)
    (h : fit_CST O x_coords n1 n2 n_cst y_coords n_x = Except.ok (au, al, te)) :
    fit_CST_up O x_coords n1 n2 n_cst y_coords n_x = Except.ok (au, te) ∧
    fit_CST_low O x_coords n1 n2 n_cst y_coords n_x = Except.ok (al, te) := by
  simp only [fit_CST, fit_CST_up, fit_CST_low] at h ⊢
  cases h1 : npLast ((y_coords.take n_x).reverse) with
  | error e => simp [h1, bindE_error] at h
  | ok yuL =>
    simp only [h1, bindE_ok] at h ⊢
    cases h2 : npLast (y_coords.drop (n_x - 1)) with
    | error e => simp [h2, bindE_error] at h
    | ok ylL =>
      simp only [h2, bindE_ok] at h ⊢
      cases h3 : npSub ((y_coords.take n_x).reverse)
          (x_coords.map (fun v => v * yuL)) with
      | error e => simp [h3, bindE_error] at h
      | ok bu =>
        simp only [h3, bindE_ok] at h ⊢
        cases h4 : npSub (y_coords.drop (n_x - 1))
            (x_coords.map (fun v => v * ylL)) with
        | error e => simp [h4, bindE_error] at h
        | ok bl =>
          simp only [h4, bindE_ok] at h ⊢
          simp only [pureE, Except.ok.injEq, Prod.mk.injEq] at h ⊢
          exact ⟨⟨h.1, h.2.2⟩, ⟨h.2.1, h.2.2⟩⟩

/-- Witness for C9's amended theorem at a concrete instance. -/
theorem fit_modes_agree_witness :
    fit_CST_up (testOracle (fun _ _ => [3])) [0] 0 0 0 [5] 1 =
      Except.ok ([3], 0) ∧
    fit_CST_low (testOracle (fun _ _ => [3])) [0] 0 0 0 [5] 1 =
      Except.ok ([3], 0) :=
  fit_modes_agree _ _ _ _ _ _ _ _ _ _ (by
    rw [fit_CST_eq_ok (testOracle (fun _ _ => [3])) [0] [5] 0 0 0 1
      (by norm_num) (by simp) (by simp)]
    simp [testOracle, teOf, yuOf, ylOf])

/-- Whether an `Except` computation succeeded (without raising). -/
def isOkE {ε β : Type} : Except ε β → Bool
  | Except.ok _ => true
  | Except.error _ => false

/-- A 130-point ordinate input: long enough for the upper-surface solve,
too short for the lower-surface solve to broadcast. -/
def y130 : List ℚ := List.replicate 130 0

/-- The 129 fitting stations used with `y130`. -/
def xc129 : List ℚ := List.replicate 129 0

theorem npSub_error {a b : List α} (h1 : a.length ≠ b.length)
    (h2 : a.length ≠ 1) (h3 : b.length ≠ 1) :
    npSub a b = Except.error "operands could not be broadcast together" := by
  simp [npSub, npBinop, h1, h2, h3]

theorem fit_CST_up_ok_of_lengths (O : Oracles α) (x_coords y_coords : List α)
    (n1 n2 : α) (n_cst n_x : ℕ)
    (hu : y_coords.take n_x ≠ [])
    (hl : y_coords.drop (n_x - 1) ≠ [])
    (hb : (y_coords.take n_x).length = x_coords.length) :
    isOkE (fit_CST_up O x_coords n1 n2 n_cst y_coords n_x) = true := by
  have hu' : (y_coords.take n_x).reverse ≠ [] := by simpa using hu
  simp only [fit_CST_up, bind, Except.bind, npLast_of_ne_nil hu',
    npLast_of_ne_nil hl]
  rw [npSub_of_length_eq (by simpa using hb)]
  rfl

theorem fit_CST_error_of_bl_mismatch (O : Oracles α)
    (x_coords y_coords : List α) (n1 n2 : α) (n_cst n_x : ℕ)
    (hu : y_coords.take n_x ≠ [])
    (hl : y_coords.drop (n_x - 1) ≠ [])
    (hbu : (y_coords.take n_x).length = x_coords.length)
    (h1 : (y_coords.drop (n_x - 1)).length ≠ x_coords.length)
    (h2 : (y_coords.drop (n_x - 1)).length ≠ 1)
    (h3 : x_coords.length ≠ 1) :
    isOkE (fit_CST O x_coords n1 n2 n_cst y_coords n_x) = false := by
  have hu' : (y_coords.take n_x).reverse ≠ [] := by simpa using hu
  simp only [fit_CST, bind, Except.bind, npLast_of_ne_nil hu',
    npLast_of_ne_nil hl]
  rw [npSub_of_length_eq (by simpa using hbu)]
  rw [npSub_error (by simpa using h1) h2 (by simpa using h3)]
  rfl

/-- Counterexample to C9 as stated: on a 130-point input, `fit_CST_up`
succeeds while `fit_CST` raises a broadcast error in its lower-surface
solve (`yl` has 2 points against 129 stations), so `fit_CST_up` does not
return "the `(au, te)` components of `fit_CST`" for every input. -/
theorem fit_modes_disagree_short_input :
    isOkE (fit_CST_up (testOracle (fun _ _ => [0])) xc129 0 0 0 y130 129) = true ∧
    isOkE (fit_CST (testOracle (fun _ _ => [0])) xc129 0 0 0 y130 129) = false := by
  constructor
  · apply fit_CST_up_ok_of_lengths <;> simp [y130, xc129]
  · apply fit_CST_error_of_bl_mismatch <;> simp [y130, xc129]

/-- An IEEE-754 double under the special-value algebra: a finite value, an
infinity, or NaN. Used to model what numpy/CPython actually do on the
leading-edge slope division (source lines 121–124), where a zero
denominator does not raise. -/
inductive NpFloat (α : Type) where
  | finite : α → NpFloat α
  | posInf : NpFloat α
  | negInf : NpFloat α
  | nan : NpFloat α
deriving DecidableEq

/-- IEEE subtraction on special values (finite overflow is out of scope). -/
def npSubF : NpFloat α → NpFloat α → NpFloat α
  | NpFloat.nan, _ => NpFloat.nan
  | _, NpFloat.nan => NpFloat.nan
  | NpFloat.finite a, NpFloat.finite b => NpFloat.finite (a - b)
  | NpFloat.finite _, NpFloat.posInf => NpFloat.negInf
  | NpFloat.finite _, NpFloat.negInf => NpFloat.posInf
  | NpFloat.posInf, NpFloat.finite _ => NpFloat.posInf
  | NpFloat.negInf, NpFloat.finite _ => NpFloat.negInf
  | NpFloat.posInf, NpFloat.posInf => NpFloat.nan
  | NpFloat.posInf, NpFloat.negInf => NpFloat.posInf
  | NpFloat.negInf, NpFloat.posInf => NpFloat.negInf
  | NpFloat.negInf, NpFloat.negInf => NpFloat.nan

/-- IEEE division on special values: in particular `a/0 = ±inf` for
`a ≠ 0` and `0/0 = NaN` — numpy emits a RuntimeWarning but raises no
exception for float64 operands. -/
def npDivF : NpFloat α → NpFloat α → NpFloat α
  | NpFloat.nan, _ => NpFloat.nan
  | _, NpFloat.nan => NpFloat.nan
  | NpFloat.finite a, NpFloat.finite b =>
    if b = 0 then
      (if 0 < a then NpFloat.posInf
       else if a < 0 then NpFloat.negInf
       else NpFloat.nan)
    else NpFloat.finite (a / b)
  | NpFloat.finite _, NpFloat.posInf => NpFloat.finite 0
  | NpFloat.finite _, NpFloat.negInf => NpFloat.finite 0
  | NpFloat.posInf, NpFloat.finite b =>
    if b < 0 then NpFloat.negInf else NpFloat.posInf
  | NpFloat.negInf, NpFloat.finite b =>
    if b < 0 then NpFloat.posInf else NpFloat.negInf
  | NpFloat.posInf, _ => NpFloat.nan
  | NpFloat.negInf, _ => NpFloat.nan

/-- `math.atan` on special values: libm's arctangent is total, with
`atan(±inf) = ±π/2` (exactly, as the nearest double); the finite branch and
the constant `π/2` are supplied as parameters. -/
def npAtanF (atanFin : α → α) (piHalf : α) : NpFloat α → NpFloat α
  | NpFloat.finite a => NpFloat.finite (atanFin a)
  | NpFloat.posInf => NpFloat.finite piHalf
  | NpFloat.negInf => NpFloat.finite (-piHalf)
  | NpFloat.nan => NpFloat.nan

/-- `math.degrees` (multiplication by `180/π`) on special values. -/
def npDegreesF (degFin : α → α) : NpFloat α → NpFloat α
  | NpFloat.finite a => NpFloat.finite (degFin a)
  | NpFloat.posInf => NpFloat.posInf
  | NpFloat.negInf => NpFloat.negInf
  | NpFloat.nan => NpFloat.nan

/-- Source lines 121–124 under IEEE special-value semantics:
`a = (data[0,1]-data[1,1]) / (data[0,0]-data[1,0])`, then
`angle = math.degrees(math.atan(a))`. -/
def leadingEdgeAngleF (atanFin degFin : α → α) (piHalf : α)
    (p0 p1 : α × α) : NpFloat α :=
  npDegreesF degFin (npAtanF atanFin piHalf
    (npDivF (npSubF (NpFloat.finite p0.2) (NpFloat.finite p1.2))
      (npSubF (NpFloat.finite p0.1) (NpFloat.finite p1.1))))

/-- Counterexample to C5 as stated: with the first two points sharing an
x-coordinate (points `(0,1)` and `(0,0)`), the leading-edge slope
computation raises nothing and returns no NaN sentinel — the IEEE division
gives `+inf` and the arctangent/degrees pipeline silently turns it into an
ordinary finite angle (90 degrees, here with `degrees∘atan` instantiated so
that the constant for `degrees(π/2)` is `90`). -/
theorem leadingEdgeAngleF_no_failure :
    leadingEdgeAngleF (α := ℚ) (fun a => a) (fun a => a) 90 (0, 1) (0, 0) =
      NpFloat.finite 90 ∧
    NpFloat.finite (90 : ℚ) ≠ NpFloat.nan := by
  constructor
  · norm_num [leadingEdgeAngleF, npSubF, npDivF, npAtanF, npDegreesF]
  · simp

/-- C5 (amended): when the first two points share an x-coordinate, the
leading-edge slope computation does not fail explicitly; under IEEE
semantics the division yields `±inf` (or NaN when the y-values are also
equal) and the angle silently becomes the finite value `degrees(±π/2)`
(±90°), or NaN in the 0/0 case. -/
theorem leadingEdgeAngleF_shared_x (atanFin degFin : α → α) (piHalf : α)
    (x y0 y1 : α) :
    (y1 < y0 → leadingEdgeAngleF atanFin degFin piHalf (x, y0) (x, y1) =
      NpFloat.finite (degFin piHalf)) ∧
    (y0 < y1 → leadingEdgeAngleF atanFin degFin piHalf (x, y0) (x, y1) =
      NpFloat.finite (degFin (-piHalf))) ∧
    (y0 = y1 → leadingEdgeAngleF atanFin degFin piHalf (x, y0) (x, y1) =
      NpFloat.nan) := by
  refine ⟨fun h => ?_, fun h => ?_, fun h => ?_⟩
  · have h1 : (0 : α) < y0 - y1 := sub_pos.mpr h
    simp [leadingEdgeAngleF, npSubF, npDivF, npAtanF, npDegreesF, sub_self,
      h1, not_lt_of_gt h1]
  · have h1 : y0 - y1 < 0 := sub_neg.mpr h
    simp [leadingEdgeAngleF, npSubF, npDivF, npAtanF, npDegreesF, sub_self,
      h1, not_lt_of_gt h1]
  · subst h
    simp [leadingEdgeAngleF, npSubF, npDivF, npAtanF, npDegreesF, sub_self]

/-- Witness for C5's amended theorem at a concrete instance. -/
theorem leadingEdgeAngleF_shared_x_witness :
    leadingEdgeAngleF (α := ℚ) (fun a => a) (fun a => a) 90 (2, 3) (2, 5) =
      NpFloat.finite ((fun (a : ℚ) => a) (-90)) :=
  (leadingEdgeAngleF_shared_x (fun a => a) (fun a => a) 90 2 3 5).2.1
    (by norm_num)

theorem npGet_eq_ok {β : Type} (xs : List β) (i : ℕ) (h : i < xs.length) :
    npGet xs i = Except.ok xs[i] := by
  simp [npGet, List.get?_eq_getElem?, List.getElem?_eq_getElem h]

theorem npAdd_of_length_eq {a b : List α} (h : a.length = b.length) :
    npAdd a b = Except.ok (List.zipWith (fun u v => u + v) a b) := by
  simp [npAdd, npBinop, h]

theorem npDot_of_length_eq {a b : List α} (h : a.length = b.length) :
    npDot a b = Except.ok (dotT a b) := by
  simp [npDot, dotT, h]

theorem npMatVec_eq_ok {A : List (List α)} {v : List α}
    (h : ∀ row ∈ A, row.length = v.length) :
    npMatVec A v = Except.ok (A.map (fun row => dotT row v)) := by
  induction A with
  | nil => rfl
  | cons row rest ih =>
    have hrow : row.length = v.length := h row (by simp)
    have hrest : ∀ r ∈ rest, r.length = v.length := fun r hr => h r (by simp [hr])
    rw [npMatVec] at ih ⊢
    rw [List.mapM_cons, npDot_of_length_eq hrow, ih hrest]
    rfl

/-- `np.max` core: value of the running maximum (first-occurrence ties). -/
def npMaxD : List α → α
  | [] => 0
  | x :: r => r.foldl (fun acc v => if acc < v then v else acc) x

/-- `np.min` core. -/
def npMinD : List α → α
  | [] => 0
  | x :: r => r.foldl (fun acc v => if v < acc then v else acc) x

/-- `np.argmax` helper: `i` is the index of the head of the remaining list,
`bi`/`bv` the best index and value so far; strict `<` keeps the first
maximum, as numpy does. -/
def argmaxAux (i bi : ℕ) (bv : α) : List α → ℕ
  | [] => bi
  | v :: vs => if bv < v then argmaxAux (i + 1) i v vs else argmaxAux (i + 1) bi bv vs

/-- `np.argmax` core: index of the first maximum (0 on empty). -/
def argmaxIdx : List α → ℕ
  | [] => 0
  | x :: xs => argmaxAux 1 0 x xs

/-- `np.argmin` helper. -/
def argminAux (i bi : ℕ) (bv : α) : List α → ℕ
  | [] => bi
  | v :: vs => if v < bv then argminAux (i + 1) i v vs else argminAux (i + 1) bi bv vs

/-- `np.argmin` core: index of the first minimum (0 on empty). -/
def argminIdx : List α → ℕ
  | [] => 0
  | x :: xs => argminAux 1 0 x xs

/-- `np.max`: raises on an empty array. -/
def npMax (xs : List α) : Except String α :=
  if xs.isEmpty then Except.error "zero-size array reduction" else Except.ok (npMaxD xs)

/-- `np.min`: raises on an empty array. -/
def npMin (xs : List α) : Except String α :=
  if xs.isEmpty then Except.error "zero-size array reduction" else Except.ok (npMinD xs)

/-- `np.argmax`: raises on an empty array. -/
def npArgmax (xs : List α) : Except String ℕ :=
  if xs.isEmpty then Except.error "zero-size array reduction" else Except.ok (argmaxIdx xs)

/-- `np.argmin`: raises on an empty array. -/
def npArgmin (xs : List α) : Except String ℕ :=
  if xs.isEmpty then Except.error "zero-size array reduction" else Except.ok (argminIdx xs)

theorem npMax_of_ne_nil {xs : List α} (h : xs ≠ []) :
    npMax xs = Except.ok (npMaxD xs) := by
  simp [npMax, h]

theorem npMin_of_ne_nil {xs : List α} (h : xs ≠ []) :
    npMin xs = Except.ok (npMinD xs) := by
  simp [npMin, h]

theorem npArgmax_of_ne_nil {xs : List α} (h : xs ≠ []) :
    npArgmax xs = Except.ok (argmaxIdx xs) := by
  simp [npArgmax, h]

theorem npArgmin_of_ne_nil {xs : List α} (h : xs ≠ []) :
    npArgmin xs = Except.ok (argminIdx xs) := by
  simp [npArgmin, h]

theorem argmaxAux_lt (xs : List α) : ∀ (i bi : ℕ) (bv : α), bi < i →
    argmaxAux i bi bv xs < i + xs.length := by
  induction xs with
  | nil => intro i bi bv h; simpa [argmaxAux] using h.trans_le (Nat.le_add_right i 0)
  | cons v vs ih =>
    intro i bi bv h
    rw [argmaxAux]
    by_cases hc : bv < v
    · rw [if_pos hc]
      have := ih (i + 1) i v (Nat.lt_succ_self i)
      simpa [Nat.add_comm, Nat.add_left_comm, Nat.add_assoc] using this
    · rw [if_neg hc]
      have := ih (i + 1) bi bv (h.trans (Nat.lt_succ_self i))
      simpa [Nat.add_comm, Nat.add_left_comm, Nat.add_assoc] using this

theorem argmaxIdx_lt_length {xs : List α} (h : xs ≠ []) :
    argmaxIdx xs < xs.length := by
  cases xs with
  | nil => exact absurd rfl h
  | cons x r =>
    rw [argmaxIdx]
    have := argmaxAux_lt r 1 0 x Nat.one_pos
    simpa [Nat.add_comm] using this

theorem argminAux_lt (xs : List α) : ∀ (i bi : ℕ) (bv : α), bi < i →
    argminAux i bi bv xs < i + xs.length := by
  induction xs with
  | nil => intro i bi bv h; simpa [argminAux] using h.trans_le (Nat.le_add_right i 0)
  | cons v vs ih =>
    intro i bi bv h
    rw [argminAux]
    by_cases hc : v < bv
    · rw [if_pos hc]
      have := ih (i + 1) i v (Nat.lt_succ_self i)
      simpa [Nat.add_comm, Nat.add_left_comm, Nat.add_assoc] using this
    · rw [if_neg hc]
      have := ih (i + 1) bi bv (h.trans (Nat.lt_succ_self i))
      simpa [Nat.add_comm, Nat.add_left_comm, Nat.add_assoc] using this

theorem argminIdx_lt_length {xs : List α} (h : xs ≠ []) :
    argminIdx xs < xs.length := by
  cases xs with
  | nil => exact absurd rfl h
  | cons x r =>
    rw [argminIdx]
    have := argminAux_lt r 1 0 x Nat.one_pos
    simpa [Nat.add_comm] using this

/-- Number of elements `np.arange(start, stop, step)` produces for a
positive step: `ceil((stop - start)/step)`, clamped at zero. -/
def npArangeLen (start stop step : ℚ) : ℕ :=
  (Int.ceil ((stop - start) / step)).toNat

/-- `np.arange(start, stop, step)`: evenly spaced values
`start + k*step`. The source's float arguments (0, 1.001, 0.0001) are
exact decimals, modelled as rationals; the float evaluation of the length
expression rounds `10009.999…8` up to the same 10010 elements the exact
computation gives. -/
def npArange (start stop step : ℚ) : List ℚ :=
  (List.range (npArangeLen start stop step)).map
    (fun k : ℕ => start + (k : ℚ) * step)

/-- The dense reconstruction grid `np.arange(0, 1.001, 0.0001)`
(source line 128). -/
def denseGridQ : List ℚ := npArange 0 (1001 / 1000) (1 / 10000)

theorem npArange_length (start stop step : ℚ) :
    (npArange start stop step).length = npArangeLen start stop step := by
  simp [npArange]

theorem npArange_getD (start stop step : ℚ) (k : ℕ)
    (h : k < npArangeLen start stop step) :
    (npArange start stop step).getD k 0 = start + (k : ℚ) * step := by
  have h' : k < (List.range (npArangeLen start stop step)).length := by simpa using h
  rw [npArange, getD_map_of_lt _ _ _ _ h', List.getElem_range]

theorem denseGridQ_length : denseGridQ.length = 10010 := by
  rw [denseGridQ, npArange_length, npArangeLen]
  rw [show ((1001 / 1000 : ℚ) - 0) / (1 / 10000) = ((10010 : ℤ) : ℚ) by norm_num]
  rw [Int.ceil_intCast]
  decide

/-- The dense station grid cast into the working field (source `x2`). -/
def x2Dense (α : Type) [LinearOrderedField α] : List α :=
  denseGridQ.map (fun q : ℚ => (q : α))

/-- The raw x-column `data[:, 0]` (source line 118). -/
def xOfData (data : List (α × α)) : List α := data.map Prod.fst

/-- The raw y-column `data[:, 1]` (source line 119). -/
def yOfData (data : List (α × α)) : List α := data.map Prod.snd

/-- The fitting stations `x[:129][::-1]` passed to `CSTLayer`
(source line 126). -/
def cstStations (data : List (α × α)) : List α :=
  ((xOfData data).take 129).reverse

/-- The fitted upper coefficients `au` (source line 127). -/
def auOf (O : Oracles α) (data : List (α × α)) : List α :=
  O.lstsq (A0_matrix O.pow 12 (1/2) 1 (cstStations data))
    (buOf (cstStations data) (yOfData data) 129)

/-- The fitted lower coefficients `al` (source line 127). -/
def alOf (O : Oracles α) (data : List (α × α)) : List α :=
  O.lstsq (A0_matrix O.pow 12 (1/2) 1 (cstStations data))
    (blOf (cstStations data) (yOfData data) 129)

/-- The fitted trailing-edge half thickness (source line 127). -/
def teOfData (data : List (α × α)) : α := teOf (yOfData data) 129

/-- The dense basis `cst2.A0` on the 10,010-point grid (source line 129). -/
def denseA0 (O : Oracles α) : List (List α) :=
  A0_matrix O.pow 12 (1/2) 1 (x2Dense α)

/-- Dense upper reconstruction `yu = cst2.A0.dot(au) + cst2.x_coords * te`
(source line 130). -/
def yuDenseOf (O : Oracles α) (data : List (α × α)) : List α :=
  List.zipWith (fun u v => u + v)
    ((denseA0 O).map (fun row => dotT row (auOf O data)))
    ((x2Dense α).map (fun v => v * teOfData data))

/-- Dense lower reconstruction `yl = cst2.A0.dot(al) - cst2.x_coords * te`
(source line 131). -/
def ylDenseOf (O : Oracles α) (data : List (α × α)) : List α :=
  List.zipWith (fun u v => u - v)
    ((denseA0 O).map (fun row => dotT row (alOf O data)))
    ((x2Dense α).map (fun v => v * teOfData data))

/-- `t4u = yu[400]` (source line 132). -/
def t4uOf (O : Oracles α) (data : List (α × α)) : α := (yuDenseOf O data).getD 400 0

/-- `t25u = yu[2500]` (source line 133). -/
def t25uOf (O : Oracles α) (data : List (α × α)) : α := (yuDenseOf O data).getD 2500 0

/-- `t60u = yu[6000]` (source line 134). -/
def t60uOf (O : Oracles α) (data : List (α × α)) : α := (yuDenseOf O data).getD 6000 0

/-- `t4l = yl[400]` (source line 135). -/
def t4lOf (O : Oracles α) (data : List (α × α)) : α := (ylDenseOf O data).getD 400 0

/-- `t25l = yl[2500]` (source line 136). -/
def t25lOf (O : Oracles α) (data : List (α × α)) : α := (ylDenseOf O data).getD 2500 0

/-- `t60l = yl[6000]` (source line 137). -/
def t60lOf (O : Oracles α) (data : List (α × α)) : α := (ylDenseOf O data).getD 6000 0

/-- `yumax = yu.max()` (source line 140). -/
def yumaxOf (O : Oracles α) (data : List (α × α)) : α := npMaxD (yuDenseOf O data)

/-- `ylmax = yl.min()` (source line 141). -/
def ylmaxOf (O : Oracles α) (data : List (α × α)) : α := npMinD (ylDenseOf O data)

/-- `xumax = x2[np.argmax(yu)]` (source line 142). -/
def xumaxOf (O : Oracles α) (data : List (α × α)) : α :=
  (x2Dense α).getD (argmaxIdx (yuDenseOf O data)) 0

/-- `xlmax = x2[np.argmin(yl)]` (source line 143). -/
def xlmaxOf (O : Oracles α) (data : List (α × α)) : α :=
  (x2Dense α).getD (argminIdx (ylDenseOf O data)) 0

/-- `yr = yl.max()` (source line 144). -/
def yrOf (O : Oracles α) (data : List (α × α)) : α := npMaxD (ylDenseOf O data)

/-- `xr = x2[np.argmax(yl)]` (source line 145). -/
def xrOf (O : Oracles α) (data : List (α × α)) : α :=
  (x2Dense α).getD (argmaxIdx (ylDenseOf O data)) 0

/-- The leading-edge angle (source lines 121–124), in the exact-field
model; the IEEE zero-denominator behaviour is modelled separately by
`leadingEdgeAngleF`. -/
def angleOf (O : Oracles α) (data : List (α × α)) : α :=
  O.degrees (O.atan (((data.getD 0 (0, 0)).2 - (data.getD 1 (0, 0)).2) /
    ((data.getD 0 (0, 0)).1 - (data.getD 1 (0, 0)).1)))

/-- The circle-fit points `data[126:131, :]` (source line 147). -/
def circlePoints (data : List (α × α)) : List (α × α) := (data.drop 126).take 5

/-- `np.std` (population standard deviation) of a flattened value list,
with the square root supplied as an oracle. -/
def npStd (sqrtF : α → α) (xs : List α) : α :=
  sqrtF ((xs.map (fun v => (v - xs.sum / (xs.length : α)) ^ 2)).sum / (xs.length : α))

/-- The initial simplex guess `(0.0025, 0, np.std([xdata, ydata]))`
(source line 150); `np.std` of the stacked 2×5 block is the standard
deviation of all ten coordinates. -/
def initialGuessOf (O : Oracles α) (data : List (α × α)) : α × α × α :=
  (1/400, 0,
    npStd O.sqrt ((circlePoints data).map Prod.fst ++ (circlePoints data).map Prod.snd))

/-- The minimizer call of source lines 151–156, through the oracle:
`(result.x, result.success)`. -/
def minimizeResultOf (O : Oracles α) (data : List (α × α)) : (α × α × α) × Bool :=
  O.minimize (initialGuessOf O data) ((circlePoints data).map Prod.fst)
    ((circlePoints data).map Prod.snd)

/-- `rf = r` from `xc, yc, r = result.x` (source lines 157–158): the third
component of the minimizer's best iterate; `result.success` is never read. -/
def rfOf (O : Oracles α) (data : List (α × α)) : α :=
  (minimizeResultOf O data).1.2.2

/-- `Fit_airfoil.objective` (source lines 180–183): sum of squared
deviations of the point-to-centre distances from the radius. -/
def objective (sqrtF : α → α) (params : α × α × α) (x y : List α) : α :=
  (List.zipWith
    (fun xv yv => (sqrtF ((xv - params.1) ^ 2 + (yv - params.2.1) ^ 2) - params.2.2) ^ 2)
    x y).sum

/-- `Fit_airfoil.get_parsec_n15` (source lines 116–178): leading-edge
angle, CST fit at degree 12 over stations `x[:129][::-1]`, dense
reconstruction on `np.arange(0, 1.001, 0.0001)`, fixed-station and
extremum features, the Nelder–Mead circle fit (through the `minimize`
oracle), and the fixed 15-element output vector. -/
def get_parsec_n15 (O : Oracles α) (data : List (α × α)) :
    Except String (List α) := do
  let x := data.map Prod.fst
  let y := data.map Prod.snd
  let d0 ← npGet data 0
  let d1 ← npGet data 1
  let a := (d0.2 - d1.2) / (d0.1 - d1.1)
  let angle := O.degrees (O.atan a)
  let res ← fit_CST O ((x.take 129).reverse) (1/2) 1 12 y 129
  let au := res.1
  let al := res.2.1
  let te := res.2.2
  let x2 : List α := denseGridQ.map (fun q : ℚ => (q : α))
  let A02 := A0_matrix O.pow 12 (1/2) 1 x2
  let yu0 ← npMatVec A02 au
  let yu ← npAdd yu0 (x2.map (fun v => v * te))
  let yl0 ← npMatVec A02 al
  let yl ← npSub yl0 (x2.map (fun v => v * te))
  let t4u ← npGet yu 400
  let t25u ← npGet yu 2500
  let t60u ← npGet yu 6000
  let t4l ← npGet yl 400
  let t25l ← npGet yl 2500
  let t60l ← npGet yl 6000
  let te1 := te
  let yumax ← npMax yu
  let ylmax ← npMin yl
  let ium ← npArgmax yu
  let xumax ← npGet x2 ium
  let ilm ← npArgmin yl
  let xlmax ← npGet x2 ilm
  let yr ← npMax yl
  let ir ← npArgmax yl
  let xr ← npGet x2 ir
  let points := (data.drop 126).take 5
  let xdata := points.map Prod.fst
  let ydata := points.map Prod.snd
  let initial : α × α × α := (1/400, 0, npStd O.sqrt (xdata ++ ydata))
  let resMin := O.minimize initial xdata ydata
  let rf := resMin.1.2.2
  pure [rf, t4u, t4l, xumax, yumax, xlmax, ylmax, t25u, t25l, angle, te1,
    xr, yr, t60u, t60l]

theorem npGet_eq_ok_getD {β : Type} (xs : List β) (i : ℕ) (d : β)
    (h : i < xs.length) : npGet xs i = Except.ok (xs.getD i d) := by
  rw [npGet_eq_ok xs i h, List.getD_eq_getElem?_getD, List.getElem?_eq_getElem h]
  simp

theorem x2Dense_length : (x2Dense α).length = 10010 := by
  rw [x2Dense, List.length_map, denseGridQ_length]

theorem yuDenseOf_length (O : Oracles α) (data : List (α × α)) :
    (yuDenseOf O data).length = 10010 := by
  have h1 : (denseA0 O (α := α)).length = (x2Dense α).length :=
    A0_matrix_length _ _ _ _ _
  simp [yuDenseOf, h1, x2Dense_length]

theorem ylDenseOf_length (O : Oracles α) (data : List (α × α)) :
    (ylDenseOf O data).length = 10010 := by
  have h1 : (denseA0 O (α := α)).length = (x2Dense α).length :=
    A0_matrix_length _ _ _ _ _
  simp [ylDenseOf, h1, x2Dense_length]

theorem get_parsec_n15_eq_ok (O : Oracles α) (data : List (α × α))
    (hd : data.length = 257)
    (hls : ∀ A b, (O.lstsq A b).length = 13) :
    get_parsec_n15 O data = Except.ok
      [rfOf O data, t4uOf O data, t4lOf O data, xumaxOf O data,
       yumaxOf O data, xlmaxOf O data, ylmaxOf O data, t25uOf O data,
       t25lOf O data, angleOf O data, teOfData data, xrOf O data,
       yrOf O data, t60uOf O data, t60lOf O data] := by
  have hyune : yuDenseOf O data ≠ [] :=
    List.ne_nil_of_length_pos (by rw [yuDenseOf_length]; norm_num)
  have hylne : ylDenseOf O data ≠ [] :=
    List.ne_nil_of_length_pos (by rw [ylDenseOf_length]; norm_num)
  have e1 : npGet data 0 = Except.ok (data.getD 0 ((0 : α), (0 : α))) :=
    npGet_eq_ok_getD data 0 (0, 0) (by rw [hd]; norm_num)
  have e2 : npGet data 1 = Except.ok (data.getD 1 ((0 : α), (0 : α))) :=
    npGet_eq_ok_getD data 1 (0, 0) (by rw [hd]; norm_num)
  have e3 : fit_CST O ((data.map Prod.fst).take 129).reverse (1/2) 1 12
      (data.map Prod.snd) 129 =
      Except.ok (auOf O data, alOf O data, teOfData data) := by
    rw [fit_CST_eq_ok O _ _ _ _ _ _ (by norm_num) (by simp [hd])
      (by simp [hd])]
    rfl
  have e4 : npMatVec (A0_matrix O.pow 12 (1/2) 1
        (denseGridQ.map (fun q : ℚ => (q : α)))) (auOf O data) =
      Except.ok ((A0_matrix O.pow 12 (1/2) 1
        (denseGridQ.map (fun q : ℚ => (q : α)))).map
        (fun row => dotT row (auOf O data))) := by
    apply npMatVec_eq_ok
    intro row hrow
    rw [A0_matrix_row_length _ _ _ _ _ row hrow]
    exact (hls _ _).symm
  have e5 : npAdd ((A0_matrix O.pow 12 (1/2) 1
        (denseGridQ.map (fun q : ℚ => (q : α)))).map
        (fun row => dotT row (auOf O data)))
      ((denseGridQ.map (fun q : ℚ => (q : α))).map
        (fun v => v * teOfData data)) = Except.ok (yuDenseOf O data) := by
    rw [npAdd_of_length_eq (by simp [A0_matrix_length])]
    rfl
  have e6 : npMatVec (A0_matrix O.pow 12 (1/2) 1
        (denseGridQ.map (fun q : ℚ => (q : α)))) (alOf O data) =
      Except.ok ((A0_matrix O.pow 12 (1/2) 1
        (denseGridQ.map (fun q : ℚ => (q : α)))).map
        (fun row => dotT row (alOf O data))) := by
    apply npMatVec_eq_ok
    intro row hrow
    rw [A0_matrix_row_length _ _ _ _ _ row hrow]
    exact (hls _ _).symm
  have e7 : npSub ((A0_matrix O.pow 12 (1/2) 1
        (denseGridQ.map (fun q : ℚ => (q : α)))).map
        (fun row => dotT row (alOf O data)))
      ((denseGridQ.map (fun q : ℚ => (q : α))).map
        (fun v => v * teOfData data)) = Except.ok (ylDenseOf O data) := by
    rw [npSub_of_length_eq (by simp [A0_matrix_length])]
    rfl
  have e8 : npGet (yuDenseOf O data) 400 = Except.ok (t4uOf O data) :=
    npGet_eq_ok_getD _ 400 0 (by rw [yuDenseOf_length]; norm_num)
  have e9 : npGet (yuDenseOf O data) 2500 = Except.ok (t25uOf O data) :=
    npGet_eq_ok_getD _ 2500 0 (by rw [yuDenseOf_length]; norm_num)
  have e10 : npGet (yuDenseOf O data) 6000 = Except.ok (t60uOf O data) :=
    npGet_eq_ok_getD _ 6000 0 (by rw [yuDenseOf_length]; norm_num)
  have e11 : npGet (ylDenseOf O data) 400 = Except.ok (t4lOf O data) :=
    npGet_eq_ok_getD _ 400 0 (by rw [ylDenseOf_length]; norm_num)
  have e12 : npGet (ylDenseOf O data) 2500 = Except.ok (t25lOf O data) :=
    npGet_eq_ok_getD _ 2500 0 (by rw [ylDenseOf_length]; norm_num)
  have e13 : npGet (ylDenseOf O data) 6000 = Except.ok (t60lOf O data) :=
    npGet_eq_ok_getD _ 6000 0 (by rw [ylDenseOf_length]; norm_num)
  have e14 : npMax (yuDenseOf O data) = Except.ok (yumaxOf O data) :=
    npMax_of_ne_nil hyune
  have e15 : npMin (ylDenseOf O data) = Except.ok (ylmaxOf O data) :=
    npMin_of_ne_nil hylne
  have e16 : npArgmax (yuDenseOf O data) =
      Except.ok (argmaxIdx (yuDenseOf O data)) := npArgmax_of_ne_nil hyune
  have e17 : npGet (denseGridQ.map (fun q : ℚ => (q : α)))
      (argmaxIdx (yuDenseOf O data)) = Except.ok (xumaxOf O data) :=
    npGet_eq_ok_getD _ _ 0 (by
      rw [show (denseGridQ.map (fun q : ℚ => (q : α))).length = 10010 from
        x2Dense_length, ← yuDenseOf_length O data]
      exact argmaxIdx_lt_length hyune)
  have e18 : npArgmin (ylDenseOf O data) =
      Except.ok (argminIdx (ylDenseOf O data)) := npArgmin_of_ne_nil hylne
  have e19 : npGet (denseGridQ.map (fun q : ℚ => (q : α)))
      (argminIdx (ylDenseOf O data)) = Except.ok (xlmaxOf O data) :=
    npGet_eq_ok_getD _ _ 0 (by
      rw [show (denseGridQ.map (fun q : ℚ => (q : α))).length = 10010 from
        x2Dense_length, ← ylDenseOf_length O data]
      exact argminIdx_lt_length hylne)
  have e20 : npMax (ylDenseOf O data) = Except.ok (yrOf O data) :=
    npMax_of_ne_nil hylne
  have e21 : npArgmax (ylDenseOf O data) =
      Except.ok (argmaxIdx (ylDenseOf O data)) := npArgmax_of_ne_nil hylne
  have e22 : npGet (denseGridQ.map (fun q : ℚ => (q : α)))
      (argmaxIdx (ylDenseOf O data)) = Except.ok (xrOf O data) :=
    npGet_eq_ok_getD _ _ 0 (by
      rw [show (denseGridQ.map (fun q : ℚ => (q : α))).length = 10010 from
        x2Dense_length, ← ylDenseOf_length O data]
      exact argmaxIdx_lt_length hylne)
  simp only [get_parsec_n15, e1, e2, e3, e4, e5, e6, e7, e8, e9, e10, e11,
    e12, e13, e14, e15, e16, e17, e18, e19, e20, e21, e22, bindE_ok, pureE]
  rfl

theorem denseGridQ_getD (k : ℕ) (h : k < 10010) :
    denseGridQ.getD k 0 = (k : ℚ) / 10000 := by
  have hA : npArangeLen 0 (1001 / 1000) (1 / 10000) = 10010 := by
    have h2 := denseGridQ_length
    rwa [denseGridQ, npArange_length] at h2
  rw [denseGridQ, npArange_getD _ _ _ k (by rw [hA]; exact h)]
  ring

theorem x2Dense_getD (k : ℕ) (h : k < 10010) :
    (x2Dense α).getD k 0 = (k : α) / 10000 := by
  have hlen : k < denseGridQ.length := by rw [denseGridQ_length]; exact h
  rw [x2Dense, getD_map_of_lt _ _ _ _ hlen]
  have hval : denseGridQ[k] = (k : ℚ) / 10000 := by
    rw [show denseGridQ[k] = denseGridQ.getD k 0 by
      rw [List.getD_eq_getElem?_getD, List.getElem?_eq_getElem hlen]; simp]
    exact denseGridQ_getD k h
  rw [hval]
  push_cast
  ring

theorem fit_CST_error_of_short (O : Oracles α) (x_coords y_coords : List α)
    (n1 n2 : α) (n_cst n_x : ℕ) (hu : y_coords.take n_x ≠ [])
    (hl : y_coords.drop (n_x - 1) = []) :
    fit_CST O x_coords n1 n2 n_cst y_coords n_x =
      Except.error "index -1 is out of bounds" := by
  have hu' : (y_coords.take n_x).reverse ≠ [] := by simpa using hu
  simp only [fit_CST, npLast_of_ne_nil hu', bindE_ok, hl]
  simp [npLast, bindE_error]

theorem get_parsec_short_input_error (O : Oracles α) (data : List (α × α))
    (h2 : 2 ≤ data.length) (h128 : data.length ≤ 128) :
    get_parsec_n15 O data = Except.error "index -1 is out of bounds" := by
  have e1 : npGet data 0 = Except.ok (data.getD 0 ((0 : α), (0 : α))) :=
    npGet_eq_ok_getD data 0 (0, 0) (by omega)
  have e2 : npGet data 1 = Except.ok (data.getD 1 ((0 : α), (0 : α))) :=
    npGet_eq_ok_getD data 1 (0, 0) (by omega)
  have e3 : fit_CST O ((data.map Prod.fst).take 129).reverse (1/2) 1 12
      (data.map Prod.snd) 129 = Except.error "index -1 is out of bounds" := by
    apply fit_CST_error_of_short
    · apply List.ne_nil_of_length_pos
      simp only [List.length_take, List.length_map]
      omega
    · rw [List.drop_eq_nil_iff]
      simp only [List.length_map]
      omega
  simp only [get_parsec_n15, e1, e2, e3, bindE_ok, bindE_error]

/-- C3 (amended): the dense reconstruction grid is
`np.arange(0, 1.001, 1e-4)` with 10,010 points (not 10,001 — it overshoots
to 1.0009); grid point `k` is the chord station `k/10000`, so indices 400,
2500, 6000 are stations 0.04, 0.25, 0.60; on that grid
`yu = A0·au + stations·te` and `yl = A0·al − stations·te`, and the six
fixed-station features (output slots 1, 7, 13 and 2, 8, 14) are `yu`/`yl`
read at grid indices 400, 2500, 6000. -/
theorem get_parsec_dense_grid_spec (O : Oracles α) (data : List (α × α))
    (hd : data.length = 257) (hls : ∀ A b, (O.lstsq A b).length = 13) :
    ∃ fs : List α,
      get_parsec_n15 O data = Except.ok fs ∧
      (x2Dense α).length = 10010 ∧
      (∀ k : ℕ, k < 10010 → (x2Dense α).getD k 0 = (k : α) / 10000) ∧
      (x2Dense α).getD 400 0 = 4 / 100 ∧
      (x2Dense α).getD 2500 0 = 25 / 100 ∧
      (x2Dense α).getD 6000 0 = 60 / 100 ∧
      yuDenseOf O data = List.zipWith (fun u v => u + v)
        ((denseA0 O).map (fun row => dotT row (auOf O data)))
        ((x2Dense α).map (fun v => v * teOfData data)) ∧
      ylDenseOf O data = List.zipWith (fun u v => u - v)
        ((denseA0 O).map (fun row => dotT row (alOf O data)))
        ((x2Dense α).map (fun v => v * teOfData data)) ∧
      fs.getD 1 0 = (yuDenseOf O data).getD 400 0 ∧
      fs.getD 7 0 = (yuDenseOf O data).getD 2500 0 ∧
      fs.getD 13 0 = (yuDenseOf O data).getD 6000 0 ∧
      fs.getD 2 0 = (ylDenseOf O data).getD 400 0 ∧
      fs.getD 8 0 = (ylDenseOf O data).getD 2500 0 ∧
      fs.getD 14 0 = (ylDenseOf O data).getD 6000 0 := by
  refine ⟨_, get_parsec_n15_eq_ok O data hd hls, x2Dense_length,
    fun k hk => x2Dense_getD k hk, ?_, ?_, ?_, rfl, rfl, rfl, rfl, rfl,
    rfl, rfl, rfl⟩
  · rw [x2Dense_getD 400 (by norm_num)]; norm_num
  · rw [x2Dense_getD 2500 (by norm_num)]; norm_num
  · rw [x2Dense_getD 6000 (by norm_num)]; norm_num

/-- Counterexample to C3 as stated: the dense grid of
`np.arange(0, 1.001, 0.0001)` has 10,010 points, not 10,001, and its last
point is 1.0009 > 1, so the grid is not "10,001 points from 0 to 1
inclusive". -/
theorem denseGrid_not_10001 :
    denseGridQ.length ≠ 10001 ∧ denseGridQ.length = 10010 ∧
    denseGridQ.getD 10009 0 = 10009 / 10000 ∧
    (1 : ℚ) < denseGridQ.getD 10009 0 := by
  refine ⟨by rw [denseGridQ_length]; norm_num, denseGridQ_length, ?_, ?_⟩
  · rw [denseGridQ_getD 10009 (by norm_num)]; norm_num
  · rw [denseGridQ_getD 10009 (by norm_num)]; norm_num

/-- A fixed 257-point input over ℚ to instantiate witnesses; its upper and
lower x-grids deliberately do not match. -/
def dataMis : List (ℚ × ℚ) :=
  List.replicate 129 ((0 : ℚ), (0 : ℚ)) ++ List.replicate 128 ((1 : ℚ), (0 : ℚ))

/-- A 2-point input, shorter than one surface. -/
def dataShort2 : List (ℚ × ℚ) := [(0, 0), (1, 1)]

theorem dataMis_length : dataMis.length = 257 := by
  rw [dataMis, List.length_append, List.length_replicate, List.length_replicate]

/-- Witness for C3's amended theorem at a concrete instance. -/
theorem get_parsec_dense_grid_spec_witness :
    ∃ fs : List ℚ,
      get_parsec_n15 (testOracle (fun _ _ => List.replicate 13 0)) dataMis =
        Except.ok fs ∧
      (x2Dense ℚ).length = 10010 ∧
      (∀ k : ℕ, k < 10010 → (x2Dense ℚ).getD k 0 = (k : ℚ) / 10000) ∧
      (x2Dense ℚ).getD 400 0 = 4 / 100 ∧
      (x2Dense ℚ).getD 2500 0 = 25 / 100 ∧
      (x2Dense ℚ).getD 6000 0 = 60 / 100 ∧
      yuDenseOf (testOracle (fun _ _ => List.replicate 13 0)) dataMis =
        List.zipWith (fun u v => u + v)
        ((denseA0 (testOracle (fun _ _ => List.replicate 13 0))).map
          (fun row => dotT row (auOf (testOracle (fun _ _ => List.replicate 13 0)) dataMis)))
        ((x2Dense ℚ).map (fun v => v * teOfData dataMis)) ∧
      ylDenseOf (testOracle (fun _ _ => List.replicate 13 0)) dataMis =
        List.zipWith (fun u v => u - v)
        ((denseA0 (testOracle (fun _ _ => List.replicate 13 0))).map
          (fun row => dotT row (alOf (testOracle (fun _ _ => List.replicate 13 0)) dataMis)))
        ((x2Dense ℚ).map (fun v => v * teOfData dataMis)) ∧
      fs.getD 1 0 = (yuDenseOf (testOracle (fun _ _ => List.replicate 13 0)) dataMis).getD 400 0 ∧
      fs.getD 7 0 = (yuDenseOf (testOracle (fun _ _ => List.replicate 13 0)) dataMis).getD 2500 0 ∧
      fs.getD 13 0 = (yuDenseOf (testOracle (fun _ _ => List.replicate 13 0)) dataMis).getD 6000 0 ∧
      fs.getD 2 0 = (ylDenseOf (testOracle (fun _ _ => List.replicate 13 0)) dataMis).getD 400 0 ∧
      fs.getD 8 0 = (ylDenseOf (testOracle (fun _ _ => List.replicate 13 0)) dataMis).getD 2500 0 ∧
      fs.getD 14 0 = (ylDenseOf (testOracle (fun _ _ => List.replicate 13 0)) dataMis).getD 6000 0 :=
  get_parsec_dense_grid_spec (testOracle (fun _ _ => List.replicate 13 0))
    dataMis dataMis_length (fun A b => by simp [testOracle])

/-- C4: for every well-formed input airfoil (257 = 2·129−1 points, with the
least-squares oracle honouring its 13-coefficient output shape),
`Fit_airfoil.get_parsec_n15` returns a vector of exactly 15 reals in the
fixed order [rf, t4u, t4l, xumax, yumax, xlmax, ylmax, t25u, t25l, angle,
te, xr, yr, t60u, t60l]. -/
theorem get_parsec_output_order (O : Oracles α) (data : List (α × α))
    (hd : data.length = 257) (hls : ∀ A b, (O.lstsq A b).length = 13) :
    ∃ fs : List α,
      get_parsec_n15 O data = Except.ok fs ∧ fs.length = 15 ∧
      fs = [rfOf O data, t4uOf O data, t4lOf O data, xumaxOf O data,
        yumaxOf O data, xlmaxOf O data, ylmaxOf O data, t25uOf O data,
        t25lOf O data, angleOf O data, teOfData data, xrOf O data,
        yrOf O data, t60uOf O data, t60lOf O data] :=
  ⟨_, get_parsec_n15_eq_ok O data hd hls, rfl, rfl⟩

/-- Witness for C4 at a concrete instance. -/
theorem get_parsec_output_order_witness :
    ∃ fs : List ℚ,
      get_parsec_n15 (testOracle (fun _ _ => List.replicate 13 0)) dataMis =
        Except.ok fs ∧ fs.length = 15 ∧
      fs = [rfOf (testOracle (fun _ _ => List.replicate 13 0)) dataMis,
        t4uOf (testOracle (fun _ _ => List.replicate 13 0)) dataMis,
        t4lOf (testOracle (fun _ _ => List.replicate 13 0)) dataMis,
        xumaxOf (testOracle (fun _ _ => List.replicate 13 0)) dataMis,
        yumaxOf (testOracle (fun _ _ => List.replicate 13 0)) dataMis,
        xlmaxOf (testOracle (fun _ _ => List.replicate 13 0)) dataMis,
        ylmaxOf (testOracle (fun _ _ => List.replicate 13 0)) dataMis,
        t25uOf (testOracle (fun _ _ => List.replicate 13 0)) dataMis,
        t25lOf (testOracle (fun _ _ => List.replicate 13 0)) dataMis,
        angleOf (testOracle (fun _ _ => List.replicate 13 0)) dataMis,
        teOfData dataMis,
        xrOf (testOracle (fun _ _ => List.replicate 13 0)) dataMis,
        yrOf (testOracle (fun _ _ => List.replicate 13 0)) dataMis,
        t60uOf (testOracle (fun _ _ => List.replicate 13 0)) dataMis,
        t60lOf (testOracle (fun _ _ => List.replicate 13 0)) dataMis] :=
  get_parsec_output_order (testOracle (fun _ _ => List.replicate 13 0))
    dataMis dataMis_length (fun A b => by simp [testOracle])

theorem getD_replicate_of_lt {β : Type} (n i : ℕ) (a d : β) (h : i < n) :
    (List.replicate n a).getD i d = a := by
  rw [List.getD_eq_getElem?_getD, List.getElem?_eq_getElem (by simpa using h),
    List.getElem_replicate]
  rfl

theorem dataMis_x_split :
    xOfData dataMis = List.replicate 129 (0 : ℚ) ++ List.replicate 128 1 := by
  rw [xOfData, dataMis, List.map_append, List.map_replicate, List.map_replicate]

/-- The upper x-grid (`x[:129][::-1]`) and lower x-grid (`x[128:]`) of
`dataMis` do not match: element 1 is 0 on the one and 1 on the other. -/
theorem dataMis_grid_mismatch :
    ((xOfData dataMis).take 129).reverse ≠ (xOfData dataMis).drop 128 := by
  intro h
  have hL : (((xOfData dataMis).take 129).reverse).getD 1 0 = 0 := by
    rw [dataMis_x_split, List.take_left' (by rw [List.length_replicate]),
      List.reverse_replicate, getD_replicate_of_lt _ _ _ _ (by norm_num)]
  have hR : ((xOfData dataMis).drop 128).getD 1 0 = 1 := by
    rw [dataMis_x_split,
      List.drop_append_of_le_length (by rw [List.length_replicate]; norm_num),
      List.drop_replicate,
      List.getD_append_right _ _ _ _ (by rw [List.length_replicate]),
      getD_replicate_of_lt _ _ _ _ (by rw [List.length_replicate]; norm_num)]
  rw [h, hR] at hL
  norm_num at hL

/-- C6 (amended): `get_parsec_n15` performs no input validation. A full
257-point input whose upper and lower x-grids do not match is processed
silently, producing a feature vector; an input shorter than one surface
(between 2 and 128 points) fails only with numpy's generic IndexError on
`yl[-1]` (an empty lower surface), not a descriptive shape/precondition
error. -/
theorem get_parsec_no_input_validation (O : Oracles α)
    (data dataShort : List (α × α)) (hd : data.length = 257)
    (hls : ∀ A b, (O.lstsq A b).length = 13)
    (hmis : ((xOfData data).take 129).reverse ≠ (xOfData data).drop 128)
    (h2 : 2 ≤ dataShort.length) (h128 : dataShort.length ≤ 128) :
    (∃ fs, get_parsec_n15 O data = Except.ok fs) ∧
    get_parsec_n15 O dataShort = Except.error "index -1 is out of bounds" :=
  ⟨⟨_, get_parsec_n15_eq_ok O data hd hls⟩,
    get_parsec_short_input_error O dataShort h2 h128⟩

/-- Witness for C6's amended theorem at a concrete instance. -/
theorem get_parsec_no_input_validation_witness :
    (∃ fs, get_parsec_n15 (testOracle (fun _ _ => List.replicate 13 0))
      dataMis = Except.ok fs) ∧
    get_parsec_n15 (testOracle (fun _ _ => List.replicate 13 0)) dataShort2 =
      Except.error "index -1 is out of bounds" :=
  get_parsec_no_input_validation (testOracle (fun _ _ => List.replicate 13 0))
    dataMis dataShort2 dataMis_length (fun A b => by simp [testOracle])
    dataMis_grid_mismatch (by rw [dataShort2]; norm_num)
    (by rw [dataShort2]; norm_num)

/-- Counterexample to C6 as stated: a malformed 257-point input whose
upper and lower x-grids do not match is not rejected — feature extraction
runs to completion and silently produces a feature vector. -/
theorem get_parsec_silent_on_mismatched_grids :
    ((xOfData dataMis).take 129).reverse ≠ (xOfData dataMis).drop 128 ∧
    isOkE (get_parsec_n15 (testOracle (fun _ _ => List.replicate 13 0))
      dataMis) = true := by
  refine ⟨dataMis_grid_mismatch, ?_⟩
  rw [get_parsec_n15_eq_ok _ _ dataMis_length (fun A b => by simp [testOracle])]
  rfl

/-- C7 (amended): the circle-fit minimizer's convergence flag
(`result.success`) is ignored by `get_parsec_n15`: the output uses only
`result.x`'s radius component and is identical whatever the flag, so no
convergence information is returned to the caller; non-convergence is
silently treated like convergence (and does not raise). -/
theorem get_parsec_ignores_convergence_flag (O : Oracles α)
    (data : List (α × α)) (bSucc : Bool) :
    get_parsec_n15
      { O with minimize := fun g xs ys => ((O.minimize g xs ys).1, bSucc) }
      data = get_parsec_n15 O data := rfl

/-- Counterexample to C7 as stated: at a concrete input, a minimizer
reporting failure and one reporting success produce the very same
15-element output (which contains no flag), so a caller cannot distinguish
a poor circle fit from an exact one. -/
theorem get_parsec_flag_indistinguishable :
    get_parsec_n15
      { testOracle (fun _ _ => List.replicate 13 0) with
        minimize := fun g _ _ => (g, false) } dataMis =
    get_parsec_n15
      { testOracle (fun _ _ => List.replicate 13 0) with
        minimize := fun g _ _ => (g, true) } dataMis := rfl

/-- `np.cumprod`: running products. -/
def cumprod (xs : List α) : List α :=
  (xs.scanl (fun acc v => acc * v) 1).tail

/-- The value-level fields `PointDiTDiffusion.__init__` computes
(source lines 87–138); the noise-prediction network, its EMA shadow copy
and the registered-buffer mechanics are outside the value model. -/
structure PointDiTDiffusion (α : Type) where
  latent_size : ℕ
  channels : ℕ
  loss_type : String
  num_timesteps : ℕ
  ddim_timesteps : ℕ
  ddim_eta : α
  betas : List α
  alphas : List α
  alphas_cumprod : List α
  sqrt_alphas_cumprod : List α
  sqrt_one_minus_alphas_cumprod : List α
  reciprocal_sqrt_alphas : List α
  remove_noise_coeff : List α
  sigma : List α

/-- `PointDiTDiffusion.__init__` (source lines 87–138): raises ValueError
unless `loss_type` is "l1" or "l2" (lines 112–113), otherwise derives the
schedule buffers (`np.sqrt` through the `sqrtF` oracle). -/
def pointDiTDiffusion_init (sqrtF : α → α) (latentSize channels : ℕ)
    (betas : List α) (lossType : String) :
    Except String (PointDiTDiffusion α) :=
  if lossType ∉ (["l1", "l2"] : List String) then
    Except.error "__init__() got unknown loss type"
  else
    Except.ok
      { latent_size := latentSize
        channels := channels
        loss_type := lossType
        num_timesteps := betas.length
        ddim_timesteps := 50
        ddim_eta := 0
        betas := betas
        alphas := betas.map (fun b => 1 - b)
        alphas_cumprod := cumprod (betas.map (fun b => 1 - b))
        sqrt_alphas_cumprod := (cumprod (betas.map (fun b => 1 - b))).map sqrtF
        sqrt_one_minus_alphas_cumprod :=
          (cumprod (betas.map (fun b => 1 - b))).map (fun v => sqrtF (1 - v))
        reciprocal_sqrt_alphas :=
          (betas.map (fun b => 1 - b)).map (fun v => sqrtF (1 / v))
        remove_noise_coeff := List.zipWith (fun b v => b / sqrtF (1 - v))
          betas (cumprod (betas.map (fun b => 1 - b)))
        sigma := betas.map sqrtF }

/-- C10: constructing `PointDiTDiffusion` with a `loss_type` other than
"l1" or "l2" raises a ValueError; for "l1" or "l2" this validation never
raises. -/
theorem pointDiT_init_loss_type_check (sqrtF : α → α) (ls ch : ℕ)
    (betas : List α) (lt : String) :
    (lt ≠ "l1" → lt ≠ "l2" →
      pointDiTDiffusion_init sqrtF ls ch betas lt =
        Except.error "__init__() got unknown loss type") ∧
    (lt = "l1" ∨ lt = "l2" →
      isOkE (pointDiTDiffusion_init sqrtF ls ch betas lt) = true) := by
  constructor
  · intro h1 h2
    simp [pointDiTDiffusion_init, h1, h2]
  · intro h
    rcases h with h | h <;> subst h <;> simp [pointDiTDiffusion_init, isOkE]

/-- Witness for C10 at concrete instances: "l3" is rejected, "l1" accepted. -/
theorem pointDiT_init_loss_type_check_witness :
    pointDiTDiffusion_init (α := ℚ) (fun a => a) 1 1 [1/2] "l3" =
      Except.error "__init__() got unknown loss type" ∧
    isOkE (pointDiTDiffusion_init (α := ℚ) (fun a => a) 1 1 [1/2] "l1") =
      true :=
  ⟨(pointDiT_init_loss_type_check (fun a => a) 1 1 [1/2] "l3").1
      (by decide) (by decide),
   (pointDiT_init_loss_type_check (fun a => a) 1 1 [1/2] "l1").2
      (Or.inl rfl)⟩

/-- The guard shared by all four sampling entry points (source lines
171–172, 247–248, 321–322, 337–338): `if y is not None and
batch_size != len(y): raise ValueError(...)`. -/
def batch_y_check {γ : Type} (batchSize : ℕ) (y : Option (List γ)) :
    Except String Unit :=
  match y with
  | none => Except.ok ()
  | some ys =>
    if batchSize ≠ ys.length then
      Except.error "sample batch size different from length of given y"
    else Except.ok ()

/-- `PointDiTDiffusion.sample` (source lines 319–333): the guard, then the
ancestral reverse loop — abstracted as `body` since it draws
`torch.randn` at every step. -/
def pddSample {γ σ : Type} (body : ℕ → Option (List γ) → σ)
    (batchSize : ℕ) (y : Option (List γ)) : Except String σ := do
  batch_y_check batchSize y
  pure (body batchSize y)

/-- `PointDiTDiffusion.sample_ddim` (source lines 160–241): the guard,
then the strided DDIM reverse loop (abstracted as `body`). -/
def pddSampleDdim {γ σ : Type} (body : ℕ → Option (List γ) → σ)
    (batchSize : ℕ) (y : Option (List γ)) : Except String σ := do
  batch_y_check batchSize y
  pure (body batchSize y)

/-- `PointDiTDiffusion.sample_ddim_sequence` (source lines 243–317): the
guard, then the DDIM loop retaining the whole trajectory. -/
def pddSampleDdimSequence {γ σ : Type} (body : ℕ → Option (List γ) → σ)
    (batchSize : ℕ) (y : Option (List γ)) : Except String σ := do
  batch_y_check batchSize y
  pure (body batchSize y)

/-- `PointDiTDiffusion.sample_diffusion_sequence` (source lines 335–352):
the guard, then the ancestral loop retaining the whole trajectory. -/
def pddSampleDiffusionSequence {γ σ : Type} (body : ℕ → Option (List γ) → σ)
    (batchSize : ℕ) (y : Option (List γ)) : Except String σ := do
  batch_y_check batchSize y
  pure (body batchSize y)

/-- C8: every diffusion sampling entry point (`sample`, `sample_ddim`,
`sample_ddim_sequence`, `sample_diffusion_sequence`) raises a ValueError
before any sampling computation when a non-None condition `y` has length
different from `batch_size`; when the lengths match, or `y` is None, the
check raises nothing and the sampling body runs. -/
theorem sampling_batch_check {γ σ : Type}
    (body1 body2 body3 body4 : ℕ → Option (List γ) → σ)
    (batchSize : ℕ) (ys : List γ) :
    (batchSize ≠ ys.length →
      pddSample body1 batchSize (some ys) =
        Except.error "sample batch size different from length of given y" ∧
      pddSampleDdim body2 batchSize (some ys) =
        Except.error "sample batch size different from length of given y" ∧
      pddSampleDdimSequence body3 batchSize (some ys) =
        Except.error "sample batch size different from length of given y" ∧
      pddSampleDiffusionSequence body4 batchSize (some ys) =
        Except.error "sample batch size different from length of given y") ∧
    (batchSize = ys.length →
      pddSample body1 batchSize (some ys) =
        Except.ok (body1 batchSize (some ys)) ∧
      pddSampleDdim body2 batchSize (some ys) =
        Except.ok (body2 batchSize (some ys)) ∧
      pddSampleDdimSequence body3 batchSize (some ys) =
        Except.ok (body3 batchSize (some ys)) ∧
      pddSampleDiffusionSequence body4 batchSize (some ys) =
        Except.ok (body4 batchSize (some ys))) ∧
    (pddSample body1 batchSize none = Except.ok (body1 batchSize none) ∧
      pddSampleDdim body2 batchSize none =
        Except.ok (body2 batchSize none) ∧
      pddSampleDdimSequence body3 batchSize none =
        Except.ok (body3 batchSize none) ∧
      pddSampleDiffusionSequence body4 batchSize none =
        Except.ok (body4 batchSize none)) := by
  refine ⟨fun h => ?_, fun h => ?_, ?_⟩
  · constructor
    · simp [pddSample, batch_y_check, h, bindE_error]
    · constructor
      · simp [pddSampleDdim, batch_y_check, h, bindE_error]
      · constructor
        · simp [pddSampleDdimSequence, batch_y_check, h, bindE_error]
        · simp [pddSampleDiffusionSequence, batch_y_check, h, bindE_error]
  · constructor
    · simp [pddSample, batch_y_check, h, bindE_ok]
    · constructor
      · simp [pddSampleDdim, batch_y_check, h, bindE_ok]
      · constructor
        · simp [pddSampleDdimSequence, batch_y_check, h, bindE_ok]
        · simp [pddSampleDiffusionSequence, batch_y_check, h, bindE_ok]
  · exact ⟨rfl, rfl, rfl, rfl⟩

/-- Witness for C8 at concrete instances: a mismatched pair raises, a
matched pair and a None condition do not. -/
theorem sampling_batch_check_witness :
    pddSample (fun (_ : ℕ) (_ : Option (List ℚ)) => (0 : ℕ)) 2 (some [0]) =
      Except.error "sample batch size different from length of given y" ∧
    pddSample (fun (_ : ℕ) (_ : Option (List ℚ)) => (0 : ℕ)) 1 (some [0]) =
      Except.ok 0 ∧
    pddSample (fun (_ : ℕ) (_ : Option (List ℚ)) => (0 : ℕ)) 2 none =
      Except.ok 0 :=
  ⟨((sampling_batch_check (fun _ _ => 0) (fun _ _ => 0) (fun _ _ => 0)
      (fun _ _ => 0) 2 [0]).1 (by decide)).1,
   ((sampling_batch_check (fun _ _ => 0) (fun _ _ => 0) (fun _ _ => 0)
      (fun _ _ => 0) 1 [0]).2.1 (by decide)).1,
   (sampling_batch_check (fun _ _ => 0) (fun _ _ => 0) (fun _ _ => 0)
      (fun _ _ => 0) 2 []).2.2.1⟩
